import Mathlib

/-!
# Verification of `graphql_query_derive` (graphql-client)

A shallow embedding of `src/graphql_query_derive/src/lib.rs`: the procedural
macro entry point `graphql_query_derive`, the orchestrator `impl_gql_query`,
and its helpers `read_file`, `find_schema_path`, `extract_attr`, and the
`FullResponse` deserialization wrapper.

Modelling conventions:
* Rust `Result<T, failure::Error>` becomes `Except GenError T`; a Rust
  `panic!` / `.expect(..)` / `.unwrap()` becomes `Except.error (GenError.panic msg)`
  (a proc-macro panic aborts the surrounding build, exactly like a returned
  error unwrapped in `graphql_query_derive`).
* The process environment (env vars), the filesystem, the `.graphqlconfig`
  read, and the external collaborators (the `graphql_parser` crate, the
  `serde_json` syntax parser, and the repository modules `schema`,
  `introspection_response`, `query`, ... that are not part of the sources
  under verification) are passed in explicitly as components of `Env` /
  `Externals`, so that `impl_gql_query` is a pure function of an explicit
  environment, mirroring every read the Rust code performs.
* Strings model file bytes; all modelled files are valid UTF-8, so
  `File::open` failure and `read_to_string` are collapsed into a partial
  filesystem map `String → Option String`.
-/

/-- Errors of a generation run.  `msg` models a `failure::Error` built with
`format_err!` / `.context(..)` (we keep the formatted text); `panic` models a
Rust panic (`panic!`, `.expect`, `.unwrap`). -/
inductive GenError where
  | msg (s : String)
  | panic (s : String)
deriving DecidableEq, Repr

/-- A JSON value, for the `serde_json` deserialization of the schema file in
the `"json"` branch of `impl_gql_query`. -/
inductive Json where
  | null
  | bool (b : Bool)
  | num (n : Int)
  | str (s : String)
  | arr (xs : List Json)
  | obj (fields : List (String × Json))

/-- Whether a JSON value is an object. -/
def Json.isObj : Json → Bool
  | .obj _ => true
  | _ => false

/-- Whether a JSON value is an array. -/
def Json.isArr : Json → Bool
  | .arr _ => true
  | _ => false

/-- `struct FullResponse<T> { data: T }` from lib.rs (line 71). -/
structure FullResponse (T : Type) where
  data : T

/-- The `visit_map` of the serde-derived `Deserialize` impl for
`FullResponse<T>`: the object's fields are processed in source order; a
field named `data` is deserialized with the inner deserializer `dT` (a
second one is a duplicate-field error, checked before its value is read);
every other field is ignored; a missing `data` field is a missing-field
error once the object is exhausted.  `acc` is the `data` value seen so
far. -/
def FullResponse.visitMap {T : Type} (dT : Json → Except GenError T) :
    Option T → List (String × Json) → Except GenError (FullResponse T)
  | acc, [] =>
    match acc with
    | some d => .ok ⟨d⟩
    | none => .error (.msg "missing field data")
  | acc, (k, v) :: rest =>
    if k = "data" then
      match acc with
      | some _ => .error (.msg "duplicate field data")
      | none =>
        match dT v with
        | .error e => .error e
        | .ok d => FullResponse.visitMap dT (some d) rest
    else FullResponse.visitMap dT acc rest

/-- serde_json's deserialization of the derived `FullResponse<T>` from a
JSON value: an object is visited field by field (`visitMap`); a sequence
supplies the struct's fields in declaration order (serde_json's
struct-from-sequence acceptance), so a one-element array yields `data` from
its single element, an empty array is an invalid-length error, and an
unconsumed trailing element is rejected by `end_seq` after the first one
deserializes; every other JSON shape is an invalid-type error.  (Message
texts model serde's diagnostics.) -/
def FullResponse.deserialize {T : Type} (dT : Json → Except GenError T) :
    Json → Except GenError (FullResponse T)
  | .obj fields => FullResponse.visitMap dT none fields
  | .arr [] =>
    .error (.msg "invalid length 0, expected struct FullResponse with 1 element")
  | .arr [v] => (dT v).map FullResponse.mk
  | .arr (v :: _ :: _) =>
    match dT v with
    | .error e => .error e
    | .ok _ => .error (.msg "trailing characters")
  | _ => .error (.msg "invalid type: expected struct FullResponse")

/-! ## A model of the `syn` attribute AST, as far as `extract_attr` inspects it -/

/-- `syn::Lit`, restricted to what `extract_attr` distinguishes: a string
literal versus anything else. -/
inductive SynLit where
  | str (s : String)
  | other
deriving DecidableEq, Repr

/-- `syn::NestedMeta`: a `name = "value"` pair, or anything else
(`extract_attr` skips every other shape). -/
inductive SynNestedMeta where
  | nameValue (ident : String) (lit : SynLit)
  | other
deriving DecidableEq, Repr

/-- `syn::Meta` as produced by `Attribute::interpret_meta`: a parenthesised
list `graphql(...)`, or another shape (bare word / name-value). -/
inductive SynMeta where
  | list (items : List SynNestedMeta)
  | other
deriving DecidableEq, Repr

/-- One `syn::Attribute`.  `path` is the rendering of the attribute path
(`quote!(#path).to_string()`); `meta := none` models `interpret_meta()`
returning `None` (ill-formed attribute), on which the code panics with
"Attribute is well formatted". -/
structure SynAttribute where
  path : String
  meta : Option SynMeta
deriving DecidableEq, Repr

/-- The parts of `syn::DeriveInput` the code reads: the struct identifier and
its outer attributes. -/
structure DeriveInput where
  ident : String
  attrs : List SynAttribute
deriving DecidableEq, Repr

/-! ## The `.graphqlconfig` file (module `read_graphql_config`, not in the sources)

Modelled from the spec: the `read_graphql_config` module is not under the
sources being verified; per the spec, a project-level `.graphqlconfig` file
may supply per-operation source locations (a `schemaPath`, and possibly a
query path).  Reading the file may itself fail (missing or malformed file),
so the environment carries the read's result. -/

/-- Modelled from the spec: the root of a parsed `.graphqlconfig` file.
`schema_path` is the optional `schemaPath` entry consulted by
`find_schema_path`; `query_path` is an optional query location the config
could carry — lib.rs never consults it. -/
structure GraphQLConfig where
  schema_path : Option String
  query_path : Option String
deriving DecidableEq, Repr

/-! ## External collaborators

The modules `schema`, `query`, `introspection_response`, ... of this crate
and the external crates `graphql_parser` / `serde_json` are outside the
sources under verification; `impl_gql_query` only sequences them.  They are
abstracted as a record of functions over abstract carrier types. -/

/-- External collaborators of `impl_gql_query`, over abstract types `Q`
(parsed query document), `A` (parsed SDL schema AST), `I`
(`IntrospectionResponse`), `S` (`schema::Schema`), `T` (the token stream
produced for the response types). -/
structure Externals (Q A I S T : Type) where
  /-- `graphql_parser::parse_query` -/
  parse_query : String → Except GenError Q
  /-- `graphql_parser::schema::parse_schema` -/
  parse_schema : String → Except GenError A
  /-- `schema::Schema::from` on an SDL AST -/
  schema_from_sdl : A → S
  /-- the `serde_json` syntax layer: text to a JSON value -/
  json_parse : String → Except GenError Json
  /-- the serde `Deserialize` impl for `introspection_response::IntrospectionResponse` -/
  intro_deserialize : Json → Except GenError I
  /-- `schema::Schema::from` on an introspection response -/
  schema_from_intro : I → S
  /-- `schema::Schema::response_for_query` -/
  response_for_query : S → Q → Except GenError T

/-- Everything a run of `impl_gql_query` can observe: the process environment
variables, the filesystem, the derive input, the result of reading the
`.graphqlconfig` file, and the external collaborators. -/
structure Env (Q A I S T : Type) where
  envVars : String → Option String
  fs : String → Option String
  input : DeriveInput
  config : Except GenError GraphQLConfig
  ext : Externals Q A I S T

/-! ## Path semantics (Unix), as used by lib.rs -/

/-- Rust `Path::file_name` on a Unix path string, as a character list: the
last component that is not empty and not `.`; `none` when that component is
`..` or there is none. -/
def pathFileNameChars (p : String) : Option (List Char) :=
  match ((p.toList.splitOnP (fun c => c == '/')).filter
      (fun c => !c.isEmpty && c ≠ ['.'])).getLast? with
  | some c => if c = ['.', '.'] then none else some c
  | none => none

/-- Rust `Path::extension` on a Unix path string: the part of the file name
after its last `.`, unless there is no `.` or the only `.` is the leading
character (hidden files have no extension). -/
def pathExtension (p : String) : Option String :=
  (pathFileNameChars p).bind fun cs =>
    match (cs.enum.filter (fun x => x.2 == '.')).getLast? with
    | none => none
    | some (0, _) => none
    | some (i, _) => some (String.mk (cs.drop (i + 1)))

/-- Rust `Path::new(a).join(b)` on Unix path strings: an absolute `b`
replaces `a`; otherwise `b` is appended, inserting a `/` separator unless
`a` is empty or already ends in one. -/
def pathJoin (a b : String) : String :=
  if b.toList.head? = some '/' then b
  else if a.toList.isEmpty || a.toList.getLast? = some '/' then a ++ b
  else a ++ "/" ++ b

/-! ## `heck::SnakeCase`, as used for the generated module name

`impl_gql_query` names the generated module
`input.ident.to_string().to_snake_case()` with `to_snake_case` from the
`heck` crate (an external collaborator): the string is split into words on
non-alphanumeric characters and on camel-case boundaries (a cased-lowercase
run followed by an uppercase letter; the last uppercase letter of an
uppercase run followed by a lowercase letter), each word is lowercased, and
the words are joined with `_`.  Modelled here for ASCII identifiers, on
which Rust's Unicode case predicates agree with Lean's ASCII ones. -/

/-- The scanning mode of heck's word-boundary detector. -/
inductive WordMode where
  | boundary
  | lower
  | upper
deriving DecidableEq, Repr

/-- Split one delimiter-free word at heck's camel-case boundaries.
`mode` is the mode reached before the current character and `acc` the
current word fragment (in order). -/
def camelSplit : WordMode → List Char → List Char → List (List Char)
  | _, acc, [] => if acc.isEmpty then [] else [acc]
  | _, acc, [c] => [acc ++ [c]]
  | mode, acc, c :: next :: rest =>
    let nextMode := if c.isLower then WordMode.lower
      else if c.isUpper then WordMode.upper
      else mode
    if nextMode = WordMode.lower && next.isUpper then
      (acc ++ [c]) :: camelSplit .boundary [] (next :: rest)
    else if mode = WordMode.upper && c.isUpper && next.isLower then
      acc :: camelSplit .boundary [c] (next :: rest)
    else
      camelSplit nextMode (acc ++ [c]) (next :: rest)

/-- `heck`'s `to_snake_case`. -/
def toSnakeCase (s : String) : String :=
  let words := ((s.toList.splitOnP (fun c => !c.isAlphanum)).map
    (camelSplit .boundary [])).flatten
  String.intercalate "_" (words.map (fun w => String.mk (w.map Char.toLower)))

/-! ## The functions of lib.rs -/

/-- The `.context(..)` message attached by `read_file` when `File::open`
fails (lib.rs lines 57-66); `path` is printed with `{:?}` (quoted). -/
def readFileErrMsg (path : String) : String :=
  "\n            Could not find file with path: \"" ++ path ++
  "\"\n            Hint: file paths in the GraphQLQuery attribute are relative to the project root (location of the Cargo.toml). Example: query_path = \"src/my_query.graphql\".\n            "

/-- `read_file` (lib.rs lines 51-69): open the file at `path` and read it to
a string; an open failure yields the error with the project-root hint. -/
def read_file (fs : String → Option String) (path : String) : Except GenError String :=
  match fs path with
  | some contents => .ok contents
  | none => .error (.msg (readFileErrMsg path))

/-- `extract_attr` (lib.rs lines 166-192): find the first outer attribute
whose path renders as `graphql`; interpret it (panicking if ill-formed); if
it is a list, return the string value of the first `attr = "value"` item
naming `attr`; otherwise fail. -/
def extract_attr (ast : DeriveInput) (attr : String) : Except GenError String :=
  match ast.attrs.find? (fun a => a.path == "graphql") with
  | none => .error (.msg "The graphql attribute is missing")
  | some attrFound =>
    match attrFound.meta with
    | none => .error (.panic "Attribute is well formatted")
    | some (.list items) =>
      match items.findSome? (fun item =>
        match item with
        | .nameValue i (.str s) => if i == attr then some s else none
        | _ => none) with
      | some v => .ok v
      | none => .error (.msg "attribute not found")
    | some .other => .error (.msg "attribute not found")

/-- The `ConfigError` message of `find_schema_path` (lib.rs lines 89-93). -/
def schemaNotFoundMsg (ident : String) : String :=
  "\n                Could not find a schema for the " ++ ident ++
  " query either from the attribute on the query or in a .graphqlconfig file at the project root.\n                "

/-- `find_schema_path` (lib.rs lines 76-95): prefer the inline
`schema_path` attribute; only on its failure read the `.graphqlconfig` and
take its `schemaPath`; any failure of the fallback chain is replaced by the
remediation message naming the derive struct. -/
def find_schema_path (config : Except GenError GraphQLConfig)
    (input : DeriveInput) : Except GenError String :=
  match extract_attr input "schema_path" with
  | .ok p => .ok p
  | .error _ =>
    match config with
    | .ok cfg =>
      match cfg.schema_path with
      | some p => .ok p
      | none => .error (.msg (schemaNotFoundMsg input.ident))
    | .error _ => .error (.msg (schemaNotFoundMsg input.ident))

/-- The paths (`module::Type`) the generated trait impl names for the
associated types (lib.rs lines 150-151). -/
structure ImplBlock where
  variables_path : String × String
  response_data_path : String × String
deriving DecidableEq, Repr

/-- The generated token stream of a successful run (lib.rs lines 136-161),
as structured data: the module (named by the snake-cased struct identifier)
holding the `QUERY` constant and the schema output, and the
`GraphQLQuery` impl on the struct. -/
structure GeneratedOutput (T : Type) where
  module_name : String
  struct_name : String
  query_const : String
  schema_output : T
  impl_block : ImplBlock
deriving DecidableEq, Repr

/-- The `::graphql_client::GraphQLQueryBody` value built by the generated
`build_query` (lib.rs lines 153-158).  The Rust field `variables` is spelled
`variables'` because `variables` is reserved in Lean. -/
structure GraphQLQueryBody (V : Type) where
  variables' : V
  query : String
deriving DecidableEq, Repr

/-- The generated `build_query` implementation: the emitted code is
literally `GraphQLQueryBody { variables, query: #module_name::QUERY }`. -/
def GeneratedOutput.build_query {T V : Type} (out : GeneratedOutput T) (v : V) :
    GraphQLQueryBody V :=
  { variables' := v, query := out.query_const }

/-- Assemble the quoted output (lib.rs lines 136-161) from the module name,
the struct name, the raw query string and the schema output tokens. -/
def mkGenerated {T : Type} (module_name struct_name query_string : String) (schema_output : T) :
    GeneratedOutput T :=
  { module_name := module_name
    struct_name := struct_name
    query_const := query_string
    schema_output := schema_output
    impl_block :=
      { variables_path := (module_name, "Variables")
        response_data_path := (module_name, "ResponseData") } }

/-- The panic message of the unsupported-extension branch (lib.rs line 131). -/
def unsupportedExtensionMsg (extn : String) : String :=
  "Unsupported extension for the GraphQL schema: " ++ extn ++
  " (only .json and .graphql are supported)"

/-- The tail of `impl_gql_query` shared by the two schema-source formats
(lib.rs lines 134-163): run `response_for_query` on the built schema and
quote the output module and trait impl. -/
def response_tokens {Q A I S T : Type} (env : Env Q A I S T)
    (module_name struct_name query_string : String) (query : Q) (schema : S) :
    Except GenError (GeneratedOutput T) :=
  match env.ext.response_for_query schema query with
  | .error e => .error e
  | .ok schema_output =>
    .ok (mkGenerated module_name struct_name query_string schema_output)

/-- The `"graphql" | "gql"` arm of the extension match (lib.rs lines
123-126): parse the schema file as SDL and continue.  (In the source the
continuation after the match is shared; here it is inlined into each arm as
`response_tokens`.) -/
def sdlBranch {Q A I S T : Type} (env : Env Q A I S T)
    (module_name struct_name query_string : String) (query : Q)
    (schema_string : String) : Except GenError (GeneratedOutput T) :=
  match (env.ext.parse_schema schema_string).map env.ext.schema_from_sdl with
  | .error e => .error e
  | .ok schema => response_tokens env module_name struct_name query_string query schema

/-- The `"json"` arm of the extension match (lib.rs lines 127-130): parse
the schema file as a `FullResponse<IntrospectionResponse>` introspection
document and continue. -/
def jsonBranch {Q A I S T : Type} (env : Env Q A I S T)
    (module_name struct_name query_string : String) (query : Q)
    (schema_string : String) : Except GenError (GeneratedOutput T) :=
  match env.ext.json_parse schema_string with
  | .error e => .error e
  | .ok j =>
    match FullResponse.deserialize env.ext.intro_deserialize j with
    | .error e => .error e
    | .ok parsed =>
      response_tokens env module_name struct_name query_string query
        (env.ext.schema_from_intro parsed.data)

/-- `impl_gql_query` (lib.rs lines 97-164), with every effect read from the
environment.  Mirrors the source statement by statement. -/
def impl_gql_query {Q A I S T : Type} (env : Env Q A I S T) :
    Except GenError (GeneratedOutput T) :=
  match env.envVars "CARGO_MANIFEST_DIR" with
  | none => .error (.panic "CARGO_MANIFEST_DIR env variable is defined")
  | some cargo_manifest_dir =>
    let module_name := toSnakeCase env.input.ident
    let struct_name := env.input.ident
    match extract_attr env.input "query_path" with
    | .error e => .error e
    | .ok query_path =>
      match find_schema_path env.config env.input with
      | .error e => .error e
      | .ok schema_path =>
        -- query path is qualified with format!("{}/{}", dir, path)
        let query_path := cargo_manifest_dir ++ "/" ++ query_path
        match read_file env.fs query_path with
        | .error e => .error e
        | .ok query_string =>
          match env.ext.parse_query query_string with
          | .error e => .error e
          | .ok query =>
            -- schema path is qualified with Path::join
            let schema_path := pathJoin cargo_manifest_dir schema_path
            match read_file env.fs schema_path with
            | .error e => .error e
            | .ok schema_string =>
              let extn := (pathExtension schema_path).getD "INVALID"
              if extn = "graphql" || extn = "gql" then
                sdlBranch env module_name struct_name query_string query schema_string
              else if extn = "json" then
                jsonBranch env module_name struct_name query_string query schema_string
              else
                .error (.panic (unsupportedExtensionMsg extn))

/-- `graphql_query_derive` (lib.rs lines 43-49): the proc-macro entry point
calls `impl_gql_query(&ast).unwrap()`, so an error from the generation turns
into a panic, which aborts the surrounding compilation. -/
def graphql_query_derive {Q A I S T : Type} (env : Env Q A I S T) :
    Except GenError (GeneratedOutput T) :=
  match impl_gql_query env with
  | .ok gen => .ok gen
  | .error _ => .error (.panic "called Result::unwrap() on an Err value")

/-! ## Auxiliary predicates for the claims -/

/-- `sub` occurs contiguously inside `s`. -/
def strHasSub (s sub : String) : Prop :=
  ∃ pre post, s = pre ++ sub ++ post

/-! ## Concrete environments, used as witnesses for the theorems -/

/-- Externals whose collaborators all succeed, over trivial carriers. -/
def testExt : Externals Unit Unit Unit Unit Unit :=
  { parse_query := fun _ => .ok ()
    parse_schema := fun _ => .ok ()
    schema_from_sdl := fun _ => ()
    json_parse := fun _ => .ok (Json.obj [("data", Json.null)])
    intro_deserialize := fun _ => .ok ()
    schema_from_intro := fun _ => ()
    response_for_query := fun _ _ => .ok () }

/-- A derive input `struct MyQuery` with
`#[graphql(query_path = "q.graphql", schema_path = "s.graphql")]`. -/
def testInput : DeriveInput :=
  { ident := "MyQuery"
    attrs := [{ path := "graphql"
                meta := some (.list
                  [.nameValue "query_path" (.str "q.graphql"),
                   .nameValue "schema_path" (.str "s.graphql")]) }] }

/-- An environment in which a run fully succeeds: the manifest dir is
`/proj`, both source files exist, there is no `.graphqlconfig`. -/
def testEnv : Env Unit Unit Unit Unit Unit :=
  { envVars := fun k => if k == "CARGO_MANIFEST_DIR" then some "/proj" else none
    fs := fun p =>
      if p == "/proj/q.graphql" then some "query text"
      else if p == "/proj/s.json" then some "introspection json"
      else if p == "/proj/s.graphql" then some "schema text" else none
    input := testInput
    config := .error (.msg "no config")
    ext := testExt }

/-- `testEnv` with an unrelated environment variable set differently. -/
def testEnvOtherVars : Env Unit Unit Unit Unit Unit :=
  { testEnv with
    envVars := fun k =>
      if k == "CARGO_MANIFEST_DIR" then some "/proj"
      else if k == "HOME" then some "/home/user" else none }

/-- A derive input whose `graphql` attribute carries only a `schema_path`
(no inline `query_path`). -/
def inputNoQueryPath : DeriveInput :=
  { ident := "MyQuery"
    attrs := [{ path := "graphql"
                meta := some (.list
                  [.nameValue "schema_path" (.str "s.graphql")]) }] }

/-- A `.graphqlconfig` supplying both a schema path and a query path. -/
def testConfig : GraphQLConfig :=
  { schema_path := some "s.graphql", query_path := some "q.graphql" }

/-- `testEnv`, except that the derive input has no inline `query_path`
attribute and the config file supplies both locations. -/
def envNoQueryAttr : Env Unit Unit Unit Unit Unit :=
  { testEnv with input := inputNoQueryPath, config := .ok testConfig }

/-- A derive input with no attributes at all. -/
def inputNoAttrs : DeriveInput := { ident := "MyQuery", attrs := [] }

/-- A derive input whose `graphql` attribute has no `schema_path`. -/
def inputOnlyQueryPath : DeriveInput :=
  { ident := "MyQuery"
    attrs := [{ path := "graphql"
                meta := some (.list
                  [.nameValue "query_path" (.str "q.graphql")]) }] }

/-- `testEnv` pointed at a `.json` schema whose parsed JSON is an object
without a top-level `"data"` key. -/
def envJsonNoData : Env Unit Unit Unit Unit Unit :=
  { testEnv with
    input := { ident := "MyQuery"
               attrs := [{ path := "graphql"
                           meta := some (.list
                             [.nameValue "query_path" (.str "q.graphql"),
                              .nameValue "schema_path" (.str "s.json")]) }] }
    ext := { testExt with
             json_parse := fun _ => .ok (Json.obj [("__schema", Json.null)]) } }

/-- A derive input pointing at a `.json` (introspection) schema. -/
def inputJson : DeriveInput :=
  { ident := "MyQuery"
    attrs := [{ path := "graphql"
                meta := some (.list
                  [.nameValue "query_path" (.str "q.graphql"),
                   .nameValue "schema_path" (.str "s.json")]) }] }

/-- `testEnv` pointed at the `.json` schema. -/
def envJson : Env Unit Unit Unit Unit Unit := { testEnv with input := inputJson }

/-- A derive input whose schema path has no file extension. -/
def inputNoExt : DeriveInput :=
  { ident := "MyQuery"
    attrs := [{ path := "graphql"
                meta := some (.list
                  [.nameValue "query_path" (.str "q.graphql"),
                   .nameValue "schema_path" (.str "schemafile")]) }] }

/-- `testEnv` pointed at the extension-less schema file, which also exists
on the filesystem. -/
def envNoExt : Env Unit Unit Unit Unit Unit :=
  { testEnv with
    input := inputNoExt
    fs := fun p =>
      if p == "/proj/q.graphql" then some "query text"
      else if p == "/proj/schemafile" then some "schema text" else none }

/-- `testEnv` pointed at the `.json` schema, whose parsed JSON is a
one-element array wrapping the introspection document — serde_json's
struct-from-sequence form, with no `data` object wrapper. -/
def envJsonArr : Env Unit Unit Unit Unit Unit :=
  { testEnv with
    input := inputJson
    ext := { testExt with
             json_parse := fun _ => .ok (Json.arr [Json.obj [("__schema", Json.null)]]) } }

/-! ## Theorems -/

/-- Inversion of a successful run: success pins the manifest dir, the inline
query path, the query file contents, and the exact shape of the generated
output. -/
theorem impl_gql_query_ok_shape {Q A I S T : Type} (env : Env Q A I S T)
    (out : GeneratedOutput T) (h : impl_gql_query env = .ok out) :
    ∃ dir qp qs t,
      env.envVars "CARGO_MANIFEST_DIR" = some dir ∧
      extract_attr env.input "query_path" = .ok qp ∧
      env.fs (dir ++ "/" ++ qp) = some qs ∧
      out = mkGenerated (toSnakeCase env.input.ident) env.input.ident qs t := by
  cases hd : env.envVars "CARGO_MANIFEST_DIR" with
  | none => simp [impl_gql_query, hd] at h
  | some dir =>
  cases hqp : extract_attr env.input "query_path" with
  | error e => simp [impl_gql_query, hd, hqp] at h
  | ok qp =>
  cases hsp : find_schema_path env.config env.input with
  | error e => simp [impl_gql_query, hd, hqp, hsp] at h
  | ok sp =>
  cases hfs : env.fs (dir ++ "/" ++ qp) with
  | none => simp [impl_gql_query, read_file, hd, hqp, hsp, hfs] at h
  | some qs =>
  cases hq : env.ext.parse_query qs with
  | error e => simp [impl_gql_query, read_file, hd, hqp, hsp, hfs, hq] at h
  | ok q =>
  cases hsf : env.fs (pathJoin dir sp) with
  | none => simp [impl_gql_query, read_file, hd, hqp, hsp, hfs, hq, hsf] at h
  | some ss =>
  simp only [impl_gql_query, read_file, hd, hqp, hsp, hfs, hq, hsf, sdlBranch, jsonBranch,
    response_tokens, Except.map] at h
  split at h
  · -- "graphql" / "gql": SDL branch
    split at h
    · exact Except.noConfusion h
    next schema hsch =>
      split at h
      · exact Except.noConfusion h
      next t ht => exact ⟨dir, qp, qs, t, rfl, rfl, hfs, (Except.ok.inj h).symm⟩
  split at h
  · -- "json": introspection branch
    split at h
    · exact Except.noConfusion h
    next j hj =>
      split at h
      · exact Except.noConfusion h
      next parsed hparsed =>
        split at h
        · exact Except.noConfusion h
        next t ht => exact ⟨dir, qp, qs, t, rfl, rfl, hfs, (Except.ok.inj h).symm⟩
  · -- unsupported extension
    exact Except.noConfusion h

/-- C1: `impl_gql_query` is a deterministic function of the derive input
(attribute values and struct identifier), the config-file read, the
filesystem contents (hence the schema and query file bytes), the external
collaborators, and the one environment variable it reads; no other state —
in particular no other environment variable — influences the generated
output, so identical inputs always produce identical output. -/
theorem impl_gql_query_deterministic {Q A I S T : Type} (e₁ e₂ : Env Q A I S T)
    (hin : e₁.input = e₂.input) (hcfg : e₁.config = e₂.config)
    (hfs : e₁.fs = e₂.fs) (hx : e₁.ext = e₂.ext)
    (hdir : e₁.envVars "CARGO_MANIFEST_DIR" = e₂.envVars "CARGO_MANIFEST_DIR") :
    impl_gql_query e₁ = impl_gql_query e₂ := by
  obtain ⟨v₁, f₁, i₁, c₁, x₁⟩ := e₁
  obtain ⟨v₂, f₂, i₂, c₂, x₂⟩ := e₂
  simp only at hin hcfg hfs hx hdir
  subst hin; subst hcfg; subst hfs; subst hx
  simp only [impl_gql_query, hdir]
  rfl

/-- C1 witness: two runs whose environments agree on everything
`impl_gql_query` reads but differ on an unrelated environment variable
(`HOME`) produce the same output. -/
theorem impl_gql_query_deterministic_witness :
    impl_gql_query testEnv = impl_gql_query testEnvOtherVars :=
  impl_gql_query_deterministic testEnv testEnvOtherVars rfl rfl rfl rfl rfl

/-- C2: a fatal error anywhere in the generation makes `impl_gql_query`
return an error — so no generated output exists for the operation — and the
entry point `graphql_query_derive` turns that error into a panic, failing
the surrounding build. -/
theorem impl_gql_query_error_propagation {Q A I S T : Type} (env : Env Q A I S T)
    (e : GenError) (h : impl_gql_query env = .error e) :
    (∀ out, impl_gql_query env ≠ .ok out) ∧
    graphql_query_derive env = .error (.panic "called Result::unwrap() on an Err value") := by
  refine ⟨fun out hout => ?_, ?_⟩
  · rw [h] at hout; exact Except.noConfusion hout
  · unfold graphql_query_derive; rw [h]

/-- C2 witness: a derive input with no `graphql` attribute makes the run
fail, and the entry point panics (failing the build) instead of emitting
output. -/
theorem impl_gql_query_error_propagation_witness :
    (∀ out, impl_gql_query { testEnv with input := inputNoAttrs } ≠ .ok out) ∧
    graphql_query_derive { testEnv with input := inputNoAttrs } =
      .error (.panic "called Result::unwrap() on an Err value") :=
  impl_gql_query_error_propagation { testEnv with input := inputNoAttrs }
    (.msg "The graphql attribute is missing") rfl

/-- C3: once a run reaches the schema file, the source format is decided by
the extension of the (manifest-dir-joined) schema path: `graphql`/`gql`
dispatches to the SDL parser, `json` to the introspection deserializer, and
any other extension — including the `INVALID` placeholder used when the path
has no extension at all — makes the run fail with the unsupported-extension
panic before any schema parsing. -/
theorem schema_source_dispatch {Q A I S T : Type} (env : Env Q A I S T)
    (dir qp sp qs ss : String) (q : Q)
    (hdir : env.envVars "CARGO_MANIFEST_DIR" = some dir)
    (hqp : extract_attr env.input "query_path" = .ok qp)
    (hsp : find_schema_path env.config env.input = .ok sp)
    (hqf : env.fs (dir ++ "/" ++ qp) = some qs)
    (hq : env.ext.parse_query qs = .ok q)
    (hsf : env.fs (pathJoin dir sp) = some ss)
    (extn : String) (hx : (pathExtension (pathJoin dir sp)).getD "INVALID" = extn) :
    ((extn = "graphql" ∨ extn = "gql") →
      impl_gql_query env = sdlBranch env (toSnakeCase env.input.ident) env.input.ident qs q ss) ∧
    (extn = "json" →
      impl_gql_query env = jsonBranch env (toSnakeCase env.input.ident) env.input.ident qs q ss) ∧
    (extn ≠ "graphql" → extn ≠ "gql" → extn ≠ "json" →
      impl_gql_query env = .error (.panic (unsupportedExtensionMsg extn))) := by
  simp only [impl_gql_query, read_file, hdir, hqp, hsp, hqf, hq, hsf, hx]
  refine ⟨fun hg => ?_, fun hj => ?_, fun h₁ h₂ h₃ => ?_⟩
  · rcases hg with hg | hg <;> subst hg <;> simp
  · subst hj; simp
  · simp [h₁, h₂, h₃]

/-- C3 witness: with otherwise identical successful environments, an
`s.graphql` schema path goes through the SDL branch, an `s.json` path goes
through the introspection branch, and a `schemafile` path (no extension)
fails with the unsupported-extension panic for `INVALID`. -/
theorem schema_source_dispatch_witness :
    impl_gql_query testEnv =
      sdlBranch testEnv "my_query" "MyQuery" "query text" () "schema text" ∧
    impl_gql_query envJson =
      jsonBranch envJson "my_query" "MyQuery" "query text" () "introspection json" ∧
    impl_gql_query envNoExt = .error (.panic (unsupportedExtensionMsg "INVALID")) :=
  ⟨(schema_source_dispatch testEnv "/proj" "q.graphql" "s.graphql" "query text"
      "schema text" () rfl rfl rfl rfl rfl rfl "graphql" rfl).1 (Or.inl rfl),
   (schema_source_dispatch envJson "/proj" "q.graphql" "s.json" "query text"
      "introspection json" () rfl rfl rfl rfl rfl rfl "json" rfl).2.1 rfl,
   (schema_source_dispatch envNoExt "/proj" "q.graphql" "schemafile" "query text"
      "schema text" () rfl rfl rfl rfl rfl rfl "INVALID" rfl).2.2
     (by decide) (by decide) (by decide)⟩

/-- C4: the inline `schema_path` attribute takes precedence — whenever it
resolves, `find_schema_path` returns exactly that value, whatever the
`.graphqlconfig` read produced: the config file is never consulted. -/
theorem schema_path_attr_precedence (input : DeriveInput) (p : String)
    (h : extract_attr input "schema_path" = .ok p)
    (config : Except GenError GraphQLConfig) :
    find_schema_path config input = .ok p := by
  simp [find_schema_path, h]

/-- C4 witness: with an inline `schema_path = "s.graphql"`, a config file
declaring a different `schemaPath` is ignored. -/
theorem schema_path_attr_precedence_witness :
    find_schema_path (.ok { schema_path := some "other.graphql", query_path := none })
      testInput = .ok "s.graphql" :=
  schema_path_attr_precedence testInput "s.graphql" rfl
    (.ok { schema_path := some "other.graphql", query_path := none })

/-- C5 counterexample: an invocation whose derive input has no inline
`query_path` attribute fails with "attribute not found" even though its
`.graphqlconfig` supplies a query path (and a schema path) — while the same
environment with the inline attribute added succeeds.  The query location is
not resolvable from the config file. -/
theorem query_path_from_config_counterexample :
    envNoQueryAttr.config = .ok testConfig ∧
    testConfig.query_path = some "q.graphql" ∧
    impl_gql_query envNoQueryAttr = .error (.msg "attribute not found") ∧
    impl_gql_query { envNoQueryAttr with input := testInput } =
      .ok (mkGenerated "my_query" "MyQuery" "query text" ()) :=
  ⟨rfl, rfl, rfl, rfl⟩

/-- C5 amended: only the schema path is resolvable from the config file; the
query path must come from the inline attribute, and when `extract_attr`
fails for `query_path` the whole run fails with that error no matter what
the config file contains. -/
theorem query_path_only_from_attribute {Q A I S T : Type} (env : Env Q A I S T)
    (e : GenError) (dir : String)
    (hdir : env.envVars "CARGO_MANIFEST_DIR" = some dir)
    (hq : extract_attr env.input "query_path" = .error e)
    (cfg : GraphQLConfig) :
    impl_gql_query env = .error e ∧
    impl_gql_query { env with config := .ok cfg } = .error e := by
  constructor <;> simp [impl_gql_query, hdir, hq]

/-- C5 amended witness: the attribute-less run fails with "attribute not
found" both with its own config read and with a config supplying both
paths. -/
theorem query_path_only_from_attribute_witness :
    impl_gql_query envNoQueryAttr = .error (.msg "attribute not found") ∧
    impl_gql_query { envNoQueryAttr with config := .ok testConfig } =
      .error (.msg "attribute not found") :=
  query_path_only_from_attribute envNoQueryAttr (.msg "attribute not found")
    "/proj" rfl rfl testConfig

/-- C6: when neither the inline attribute nor the config file yields a
schema path, `find_schema_path` fails with the remediation message, which
names the derive struct identifier and points at the `.graphqlconfig`
alternative; and an unreadable source file fails with a message carrying the
relative-to-project-root hint. -/
theorem config_error_remediation_hints {Q A I S T : Type} (env : Env Q A I S T)
    (ea : GenError) (hsa : extract_attr env.input "schema_path" = .error ea)
    (hno : ∀ cfg, env.config = .ok cfg → cfg.schema_path = none)
    (fs : String → Option String) (path : String) (hfile : fs path = none) :
    find_schema_path env.config env.input =
      .error (.msg (schemaNotFoundMsg env.input.ident)) ∧
    strHasSub (schemaNotFoundMsg env.input.ident) env.input.ident ∧
    strHasSub (schemaNotFoundMsg env.input.ident) ".graphqlconfig" ∧
    read_file fs path = .error (.msg (readFileErrMsg path)) ∧
    strHasSub (readFileErrMsg path) "relative to the project root" := by
  refine ⟨?_, ?_, ?_, ?_, ?_⟩
  · cases hc : env.config with
    | ok cfg => simp [find_schema_path, hsa, hc, hno cfg hc]
    | error e => simp [find_schema_path, hsa, hc]
  · exact ⟨"\n                Could not find a schema for the ",
      " query either from the attribute on the query or in a .graphqlconfig file at the project root.\n                ",
      rfl⟩
  · refine ⟨"\n                Could not find a schema for the " ++ env.input.ident ++
      " query either from the attribute on the query or in a ",
      " file at the project root.\n                ", ?_⟩
    simp only [schemaNotFoundMsg, String.append_assoc]
    rfl
  · simp [read_file, hfile]
  · refine ⟨"\n            Could not find file with path: \"" ++ path ++
      "\"\n            Hint: file paths in the GraphQLQuery attribute are ",
      " (location of the Cargo.toml). Example: query_path = \"src/my_query.graphql\".\n            ", ?_⟩
    simp only [readFileErrMsg, String.append_assoc]
    rfl

/-- C6 witness: a derive input whose attribute has only `query_path`, a
config without `schemaPath`, and a missing file path all produce the hinted
diagnostics. -/
theorem config_error_remediation_hints_witness :
    find_schema_path (.ok { schema_path := none, query_path := none })
      inputOnlyQueryPath = .error (.msg (schemaNotFoundMsg "MyQuery")) ∧
    strHasSub (schemaNotFoundMsg "MyQuery") "MyQuery" ∧
    strHasSub (schemaNotFoundMsg "MyQuery") ".graphqlconfig" ∧
    read_file (fun _ => none) "/proj/missing.graphql" =
      .error (.msg (readFileErrMsg "/proj/missing.graphql")) ∧
    strHasSub (readFileErrMsg "/proj/missing.graphql") "relative to the project root" :=
  config_error_remediation_hints
    { testEnv with input := inputOnlyQueryPath,
                   config := .ok { schema_path := none, query_path := none } }
    (.msg "attribute not found") rfl
    (fun cfg hc => by cases hc; rfl)
    (fun _ => none) "/proj/missing.graphql" rfl

/-- C7: on every successful run, the `QUERY` constant of the emitted module
is exactly the query file's contents — `read_file` returns the text verbatim
and `impl_gql_query` quotes that same string unchanged. -/
theorem query_const_verbatim {Q A I S T : Type} (env : Env Q A I S T)
    (out : GeneratedOutput T) (dir qp qs : String)
    (hdir : env.envVars "CARGO_MANIFEST_DIR" = some dir)
    (hqp : extract_attr env.input "query_path" = .ok qp)
    (hqf : env.fs (dir ++ "/" ++ qp) = some qs)
    (h : impl_gql_query env = .ok out) :
    out.query_const = qs := by
  obtain ⟨dir', qp', qs', t, hd', hq', hf', hout⟩ := impl_gql_query_ok_shape env out h
  have hdd : dir' = dir := by rw [hdir] at hd'; exact (Option.some.inj hd').symm
  subst hdd
  have hqq : qp' = qp := by rw [hqp] at hq'; exact (Except.ok.inj hq').symm
  subst hqq
  have hss : qs' = qs := by rw [hqf] at hf'; exact (Option.some.inj hf').symm
  subst hss
  rw [hout]
  rfl

/-- C7 witness: the successful test run stores the query file's text
`"query text"` as the module's `QUERY` constant. -/
theorem query_const_verbatim_witness :
    (mkGenerated "my_query" "MyQuery" "query text" ()).query_const = "query text" :=
  query_const_verbatim testEnv (mkGenerated "my_query" "MyQuery" "query text" ())
    "/proj" "q.graphql" "query text" rfl rfl rfl rfl

/-- C8: for every successful run and every `Variables` value `v`, the
generated `build_query v` is the request body pairing exactly `v` with the
stored `QUERY` constant, and the generated impl points its two associated
types at `module::Variables` and `module::ResponseData` — the binding's one
operation. -/
theorem build_query_pairs_variables_and_query {Q A I S T V : Type} (env : Env Q A I S T)
    (out : GeneratedOutput T) (h : impl_gql_query env = .ok out) (v : V) :
    (out.build_query v).variables' = v ∧
    (out.build_query v).query = out.query_const ∧
    out.impl_block.variables_path = (out.module_name, "Variables") ∧
    out.impl_block.response_data_path = (out.module_name, "ResponseData") := by
  obtain ⟨dir, qp, qs, t, _, _, _, hout⟩ := impl_gql_query_ok_shape env out h
  subst hout
  exact ⟨rfl, rfl, rfl, rfl⟩

/-- C8 witness: on the successful test run, `build_query 42` carries
variables `42` and the stored query text. -/
theorem build_query_pairs_variables_and_query_witness :
    ((mkGenerated "my_query" "MyQuery" "query text" ()).build_query (42 : Nat)).variables'
        = 42 ∧
    ((mkGenerated "my_query" "MyQuery" "query text" ()).build_query (42 : Nat)).query
        = (mkGenerated "my_query" "MyQuery" "query text" ()).query_const ∧
    (mkGenerated "my_query" "MyQuery" "query text" ()).impl_block.variables_path
        = ("my_query", "Variables") ∧
    (mkGenerated "my_query" "MyQuery" "query text" ()).impl_block.response_data_path
        = ("my_query", "ResponseData") :=
  build_query_pairs_variables_and_query testEnv
    (mkGenerated "my_query" "MyQuery" "query text" ()) rfl 42

/-- Skipping a prefix of fields none of which is named `data` does not
change `visitMap`. -/
theorem visitMap_append_no_data {T : Type} (dT : Json → Except GenError T)
    (acc : Option T) (pre rest : List (String × Json))
    (h : ∀ kv ∈ pre, kv.1 ≠ "data") :
    FullResponse.visitMap dT acc (pre ++ rest) = FullResponse.visitMap dT acc rest := by
  induction pre with
  | nil => rfl
  | cons kv pre ih =>
    obtain ⟨k, v⟩ := kv
    have hk : k ≠ "data" := h (k, v) (List.mem_cons_self _ _)
    simp only [List.cons_append, FullResponse.visitMap, if_neg hk]
    exact ih (fun kv hkv => h kv (List.mem_cons_of_mem _ hkv))

/-- `visitMap` over fields containing no `data` key returns the accumulated
value, or the missing-field error when none was seen. -/
theorem visitMap_no_data {T : Type} (dT : Json → Except GenError T)
    (acc : Option T) (l : List (String × Json)) (h : ∀ kv ∈ l, kv.1 ≠ "data") :
    FullResponse.visitMap dT acc l =
      match acc with
      | some d => .ok ⟨d⟩
      | none => .error (.msg "missing field data") := by
  induction l with
  | nil => rfl
  | cons kv rest ih =>
    obtain ⟨k, v⟩ := kv
    have hk : k ≠ "data" := h (k, v) (List.mem_cons_self _ _)
    simp only [FullResponse.visitMap, if_neg hk]
    exact ih (fun kv hkv => h kv (List.mem_cons_of_mem _ hkv))

/-- Once a `data` value has been seen, any further `data` key makes
`visitMap` fail with the duplicate-field error. -/
theorem visitMap_duplicate {T : Type} (dT : Json → Except GenError T) (d : T)
    (l : List (String × Json)) (h : ∃ kv ∈ l, kv.1 = "data") :
    FullResponse.visitMap dT (some d) l = .error (.msg "duplicate field data") := by
  induction l with
  | nil => obtain ⟨kv, hm, _⟩ := h; cases hm
  | cons kv rest ih =>
    obtain ⟨k, v⟩ := kv
    by_cases hk : k = "data"
    · simp [FullResponse.visitMap, hk]
    · simp only [FullResponse.visitMap, if_neg hk]
      apply ih
      obtain ⟨kv', hm, hd⟩ := h
      rcases List.mem_cons.mp hm with heq | hm'
      · subst heq; exact absurd hd hk
      · exact ⟨kv', hm', hd⟩

/-- C9 counterexample: a `.json` schema whose parsed JSON is the one-element
array `[{"__schema": null}]` — not an object, so without the top-level
`data` wrapper — is accepted through serde_json's struct-from-sequence rule
and the run succeeds, contradicting the claim that a JSON document lacking
the wrapper makes the run fail with a parse error. -/
theorem json_data_wrapper_counterexample :
    envJsonArr.ext.json_parse "introspection json"
      = .ok (Json.arr [Json.obj [("__schema", Json.null)]]) ∧
    (Json.arr [Json.obj [("__schema", Json.null)]]).isObj = false ∧
    impl_gql_query envJsonArr = .ok (mkGenerated "my_query" "MyQuery" "query text" ()) :=
  ⟨rfl, rfl, rfl⟩

/-- C9 amended: the `"json"` branch deserializes the parsed schema JSON into
`FullResponse { data }` by serde's derived rules: the run continues with the
introspection deserialization of the `data` value when the JSON is an
object with exactly one `data` field, or — serde_json's
struct-from-sequence acceptance — with the single element of a one-element
array; an object with no `data` field or a duplicated one, an empty or
longer array, and every other JSON shape fail the run with a parse
error. -/
theorem json_schema_data_wrapper_shapes {Q A I S T : Type} (env : Env Q A I S T)
    (dir qp sp qs ss : String) (q : Q) (j : Json)
    (hdir : env.envVars "CARGO_MANIFEST_DIR" = some dir)
    (hqp : extract_attr env.input "query_path" = .ok qp)
    (hsp : find_schema_path env.config env.input = .ok sp)
    (hqf : env.fs (dir ++ "/" ++ qp) = some qs)
    (hq : env.ext.parse_query qs = .ok q)
    (hsf : env.fs (pathJoin dir sp) = some ss)
    (hx : (pathExtension (pathJoin dir sp)).getD "INVALID" = "json")
    (hj : env.ext.json_parse ss = .ok j) :
    (impl_gql_query env =
      match FullResponse.deserialize env.ext.intro_deserialize j with
      | .error e => .error e
      | .ok parsed =>
        response_tokens env (toSnakeCase env.input.ident) env.input.ident qs q
          (env.ext.schema_from_intro parsed.data)) ∧
    (∀ pre v post, (∀ kv ∈ pre, kv.1 ≠ "data") → (∀ kv ∈ post, kv.1 ≠ "data") →
      FullResponse.deserialize env.ext.intro_deserialize
          (.obj (pre ++ ("data", v) :: post))
        = (env.ext.intro_deserialize v).map FullResponse.mk) ∧
    (∀ v, FullResponse.deserialize env.ext.intro_deserialize (.arr [v])
        = (env.ext.intro_deserialize v).map FullResponse.mk) ∧
    (∀ fields, (∀ kv ∈ fields, kv.1 ≠ "data") →
      FullResponse.deserialize env.ext.intro_deserialize (.obj fields)
        = .error (.msg "missing field data")) ∧
    (∀ pre v post, (∀ kv ∈ pre, kv.1 ≠ "data") → (∃ kv ∈ post, kv.1 = "data") →
      ∃ e, FullResponse.deserialize env.ext.intro_deserialize
          (.obj (pre ++ ("data", v) :: post)) = .error e) ∧
    (FullResponse.deserialize env.ext.intro_deserialize (.arr [])
      = .error (.msg "invalid length 0, expected struct FullResponse with 1 element")) ∧
    (∀ v w rest, ∃ e, FullResponse.deserialize env.ext.intro_deserialize
        (.arr (v :: w :: rest)) = .error e) ∧
    (j.isObj = false → j.isArr = false →
      FullResponse.deserialize env.ext.intro_deserialize j
        = .error (.msg "invalid type: expected struct FullResponse")) := by
  refine ⟨?_, ?_, ?_, ?_, ?_, ?_, ?_, ?_⟩
  · have hB : impl_gql_query env
        = jsonBranch env (toSnakeCase env.input.ident) env.input.ident qs q ss := by
      simp only [impl_gql_query, read_file, hdir, hqp, hsp, hqf, hq, hsf, hx]
      simp
    rw [hB]
    simp only [jsonBranch, hj]
  · intro pre v post h1 h2
    simp only [FullResponse.deserialize]
    rw [visitMap_append_no_data _ _ _ _ h1]
    cases hv : env.ext.intro_deserialize v with
    | error e => simp [FullResponse.visitMap, hv, Except.map]
    | ok d => simp [FullResponse.visitMap, hv, visitMap_no_data _ _ _ h2, Except.map]
  · intro v
    rfl
  · intro fields h
    simpa [FullResponse.deserialize] using
      visitMap_no_data env.ext.intro_deserialize none fields h
  · intro pre v post h1 h2
    simp only [FullResponse.deserialize]
    rw [visitMap_append_no_data _ _ _ _ h1]
    cases hv : env.ext.intro_deserialize v with
    | error e => exact ⟨e, by simp [FullResponse.visitMap, hv]⟩
    | ok d =>
      exact ⟨.msg "duplicate field data",
        by simp [FullResponse.visitMap, hv, visitMap_duplicate _ _ _ h2]⟩
  · rfl
  · intro v w rest
    cases hv : env.ext.intro_deserialize v with
    | error e => exact ⟨e, by simp [FullResponse.deserialize, hv]⟩
    | ok d => exact ⟨.msg "trailing characters", by simp [FullResponse.deserialize, hv]⟩
  · intro h1 h2
    cases j with
    | obj fields => simp [Json.isObj] at h1
    | arr xs => simp [Json.isArr] at h2
    | null => rfl
    | bool b => rfl
    | num n => rfl
    | str s => rfl

/-- C9 amended witness: a `.json` schema parsing to `{"__schema": null}` —
an object with no `data` field — fails the run with the missing-field parse
error. -/
theorem json_schema_data_wrapper_shapes_witness :
    impl_gql_query envJsonNoData = .error (.msg "missing field data") := by
  have h := json_schema_data_wrapper_shapes envJsonNoData "/proj" "q.graphql" "s.json"
    "query text" "introspection json" () (Json.obj [("__schema", Json.null)])
    rfl rfl rfl rfl rfl rfl rfl rfl
  exact h.1.trans rfl

/-- C10: every successful run places the generated definitions in a module
named by the snake_case conversion of the derive struct's identifier, and
the trait impl refers to `Variables` / `ResponseData` inside exactly that
module; since `heck`'s snake_case identifies names differing only in case or
delimiting (`MyQuery`, `myQuery`, `My_Query` all map to `my_query`), such
derives collide on the same module name. -/
theorem module_named_snake_case {Q A I S T : Type} (env : Env Q A I S T)
    (out : GeneratedOutput T) (h : impl_gql_query env = .ok out) :
    out.module_name = toSnakeCase env.input.ident ∧
    out.impl_block.variables_path = (out.module_name, "Variables") ∧
    out.impl_block.response_data_path = (out.module_name, "ResponseData") ∧
    toSnakeCase "MyQuery" = "my_query" ∧
    toSnakeCase "myQuery" = "my_query" ∧
    toSnakeCase "My_Query" = "my_query" := by
  obtain ⟨dir, qp, qs, t, _, _, _, hout⟩ := impl_gql_query_ok_shape env out h
  subst hout
  exact ⟨rfl, rfl, rfl, rfl, rfl, rfl⟩

/-- C10 witness: the successful test run for struct `MyQuery` generates
module `my_query`, with the impl pointing into it. -/
theorem module_named_snake_case_witness :
    (mkGenerated "my_query" "MyQuery" "query text" ()).module_name = toSnakeCase "MyQuery" ∧
    (mkGenerated "my_query" "MyQuery" "query text" ()).impl_block.variables_path
      = ("my_query", "Variables") ∧
    (mkGenerated "my_query" "MyQuery" "query text" ()).impl_block.response_data_path
      = ("my_query", "ResponseData") ∧
    toSnakeCase "MyQuery" = "my_query" ∧
    toSnakeCase "myQuery" = "my_query" ∧
    toSnakeCase "My_Query" = "my_query" :=
  module_named_snake_case testEnv (mkGenerated "my_query" "MyQuery" "query text" ()) rfl
